import Mathlib

/-!
Verification development for the `newtoken` service (src/main.py), a FastAPI
app that generates a web page from a brief, publishes it to a GitHub
repository, enables GitHub Pages, and notifies an evaluator with retries.

The embedding below translates the relevant parts of `src/main.py` into
executable Lean definitions:

* `clean_llm_html`  — the fenced-code extraction helper (lines 70-73),
  including an executable model of Python's
  `re.search(r"\x60\x60\x60(?:html)?(.*?)\x60\x60\x60", text, DOTALL | IGNORECASE)`
  with leftmost search, greedy optional `html` tag with backtracking, and a
  lazy (earliest possible) closing fence.
* `notify_evaluator_run` — the retry loop of `notify_evaluator` (lines 87-99),
  returning the number of HTTP attempts made and the list of sleeps performed.
* `api_endpoint` — the POST /api-endpoint handler (lines 109-238), modelled as
  a pure function from a configuration, an environment of external-call
  outcomes, and a validated request body, to a trace of external effects plus
  the HTTP response.
-/

set_option maxRecDepth 100000

namespace NewToken

/-! ### Python string helpers -/

/-- The backtick character, written via its code point. -/
def tick : Char := Char.ofNat 96

/-- Whitespace as recognised by Python's `str.strip()` (the ASCII whitespace
characters; the claims only involve these). -/
def pyIsSpace (c : Char) : Bool :=
  c = ' ' || c = '\t' || c = '\n' || c = '\r' || c = Char.ofNat 11 || c = Char.ofNat 12

/-- Python `str.strip()` on a character list: drop whitespace from both ends. -/
def pyStrip (l : List Char) : List Char :=
  ((l.dropWhile pyIsSpace).reverse.dropWhile pyIsSpace).reverse

/-- Python `str.strip()` on a string. -/
def pyStripStr (s : String) : String := (pyStrip s.toList).asString

/-- Substring test: does `l` contain `pat` as a contiguous sublist? -/
def hasSub (pat : List Char) : List Char → Bool
  | [] => pat == []
  | c :: rest => ((c :: rest).take pat.length == pat) || hasSub pat rest

/-- Python `str.lower` (the claims only involve ASCII identities). -/
def pyLowerStr (s : String) : String := (s.toList.map Char.toLower).asString

/-- Python `str.replace`: replace every non-overlapping occurrence of `pat`
(left to right) by `rep`.  Structurally fuelled (each step consumes at least
one character, so fuel = input length suffices); executable in the kernel,
unlike core `String.replace`. -/
def replaceAux (pat rep : List Char) : Nat → List Char → List Char
  | 0, l => l
  | Nat.succ fuel, l =>
      match l with
      | [] => []
      | c :: rest =>
          if l.take pat.length = pat ∧ pat ≠ [] then
            rep ++ replaceAux pat rep fuel (l.drop pat.length)
          else
            c :: replaceAux pat rep fuel rest

/-- Python `str.replace` on strings. -/
def pyReplaceStr (s pat rep : String) : String :=
  (replaceAux pat.toList rep.toList s.toList.length s.toList).asString

/-! ### The fenced-code extraction of `clean_llm_html` (src/main.py lines 70-73)

`re.search` scans for the leftmost position at which the pattern
`\x60\x60\x60(?:html)?(.*?)\x60\x60\x60` matches (DOTALL, IGNORECASE).  At a given
position the engine first tries to consume a case-insensitive `html` tag
(greedy `?`), then extends the lazy `(.*?)` minimally until a closing
triple-backtick is found; if no closing fence exists with the tag consumed it
backtracks to the empty tag. -/

/-- Does the list start with three backticks? -/
def startsFence (l : List Char) : Bool := decide (l.take 3 = [tick, tick, tick])

/-- Does the list contain three consecutive backticks anywhere? -/
def containsFence : List Char → Bool
  | [] => false
  | c :: rest => startsFence (c :: rest) || containsFence rest

/-- Does the list start with `html`, case-insensitively (IGNORECASE)? -/
def startsWithHtmlCI : List Char → Bool
  | c1 :: c2 :: c3 :: c4 :: _ =>
      c1.toLower = 'h' && c2.toLower = 't' && c3.toLower = 'm' && c4.toLower = 'l'
  | _ => false

/-- Is the list exactly a case-insensitive `html` tag (four characters)? -/
def isHtmlTagCI : List Char → Bool
  | [c1, c2, c3, c4] =>
      c1.toLower = 'h' && c2.toLower = 't' && c3.toLower = 'm' && c4.toLower = 'l'
  | _ => false

/-- Find the earliest closing fence: split `l` as `group ++ \x60\x60\x60 ++ rest` at the
first triple-backtick, returning `(group, rest)`. -/
def findClose : List Char → Option (List Char × List Char)
  | [] => none
  | c :: rest =>
      if startsFence (c :: rest) then some ([], rest.drop 2)
      else
        match findClose rest with
        | some p => some (c :: p.1, p.2)
        | none => none

/-- Try to match the pattern anchored at the current position, returning the
capture group.  Mirrors the engine's backtracking order: the optional `html`
tag is consumed first (greedy), the lazy group then reaches to the earliest
closing fence; if none exists the tag is given back. -/
def matchAt (l : List Char) : Option (List Char) :=
  if startsFence l then
    let rest := l.drop 3
    if startsWithHtmlCI rest then
      match findClose (rest.drop 4) with
      | some p => some p.1
      | none =>
        match findClose rest with
        | some p => some p.1
        | none => none
    else
      match findClose rest with
      | some p => some p.1
      | none => none
  else
    none

/-- `re.search`: try each position from the left, return the first capture. -/
def searchFence : List Char → Option (List Char)
  | [] => none
  | c :: rest =>
      match matchAt (c :: rest) with
      | some g => some g
      | none => searchFence rest

/-- Core of `clean_llm_html` on character lists:
`(match.group(1) if match else text).strip()`. -/
def cleanCore (l : List Char) : List Char :=
  match searchFence l with
  | some g => pyStrip g
  | none => pyStrip l

/-- `clean_llm_html` (src/main.py lines 70-73). -/
def clean_llm_html (text : String) : String := (cleanCore text.toList).asString

/-! ### The notifier retry loop (src/main.py lines 87-99)

```python
delay = 1
for attempt in range(5):
    try:
        resp = requests.post(evaluation_url, ...)
        if resp.status_code == 200:
            return
    except Exception as e:
        logging.error(...)
    time.sleep(delay)
    delay *= 2
```

The environment supplies, per attempt index, either `some status` (the HTTP
response status) or `none` (a transport-level exception, caught by the
`except`).  The run returns the total number of POST attempts made and the
list of `time.sleep` durations performed, in order. -/

def notifyAux (res : Nat → Option Nat) : Nat → Nat → Nat → Nat × List Nat
  | 0, i, _ => (i, [])
  | Nat.succ fuel, i, delay =>
      if res i = some 200 then (i + 1, [])
      else
        let r := notifyAux res fuel (i + 1) (delay * 2)
        (r.1, delay :: r.2)

/-- One invocation of `notify_evaluator`: `(attempts made, sleeps performed)`. -/
def notify_evaluator_run (res : Nat → Option Nat) : Nat × List Nat :=
  notifyAux res 5 0 1

/-! ### Data model of the POST /api-endpoint handler (src/main.py lines 109-238) -/

/-- Environment-sourced configuration (src/main.py lines 33-38).
`STUDENT_SECRET = os.getenv("STUDENT_SECRET")` may be absent, hence `Option`;
`EVALUATION_URL` and `ALLOWED_EMAIL` have defaults so they are always strings.
`GITHUB_TOKEN` and `GITHUB_OWNER` may also be absent in Python, but the claims
never inspect them, so they are kept as plain strings. -/
structure Config where
  github_token : String
  student_secret : Option String
  github_owner : String
  evaluation_url_default : String
  allowed_email : String

/-- The pydantic `TaskRequest` body (src/main.py lines 58-65).  All fields
except `evaluation_url` are required, so `data.dict()` always contains them. -/
structure TaskRequest where
  email : String
  secret : String
  task : String
  round : Int
  nonce : String
  brief : String
  evaluation_url : Option String

/-- Outcome of the OpenAI chat-completions call (lines 151-162): either the
raw message content, or an exception message. -/
inductive GenOutcome
  | ok (text : String)
  | fail (msg : String)
deriving DecidableEq

/-- The `html_url` / `clone_url` fields of a GitHub repo JSON object. -/
structure RepoInfo where
  html_url : String
  clone_url : String
deriving DecidableEq

/-- Outcome of the git subprocess sequence in the try block (lines 188-205):
either every `check=True` invocation succeeds, or the first
`CalledProcessError` is raised at one of the five invocation sites (clone,
config, add, commit, push), carrying the exception text, and the steps after
it never run.  A `configFail` covers either of the two `git config` calls.
File writes are plain Python I/O whose exceptions would not be caught by the
`except subprocess.CalledProcessError` clause; they are outside this model. -/
inductive GitResult
  | ok
  | cloneFail (msg : String)
  | configFail (msg : String)
  | addFail (msg : String)
  | commitFail (msg : String)
  | pushFail (msg : String)
deriving DecidableEq

/-- Outcomes of all the external calls the handler can make, supplied as
input so the handler itself is a pure function.
`notify_results i` is the outcome of the i-th notifier POST
(`some status` or `none` for a transport exception). -/
structure Env where
  gen : GenOutcome
  repo_get_status : Nat
  repo_info : RepoInfo
  create_status : Nat
  create_text : String
  create_info : RepoInfo
  git : GitResult
  pages_status : Nat
  notify_results : Nat → Option Nat

/-- One check object in the notification payload (lines 226-230). -/
structure CheckResult where
  check : String
  score : Nat
  reason : String
deriving DecidableEq

/-- The notification payload sent to the evaluator (lines 216-232). -/
structure Payload where
  email : String
  task : String
  round : Int
  nonce : String
  repo_url : String
  commit_sha : String
  pages_url : String
  status : String
  checks : List CheckResult
deriving DecidableEq

/-- One external side effect of the handler, in program order. The local
`git config` / `git add` subprocess steps are local-only and not traced;
each file write is a truncating whole-file write (Python `open(..., "w")`). -/
inductive Effect
  | genCall (prompt : String)
  | repoGet (url : String)
  | repoCreate (name : String)
  | gitClone (url : String)
  | writeIndex (content : String)
  | writeReadme (content : String)
  | writeLicense (content : String)
  | gitCommit (msg : String)
  | gitPush
  | pagesCall (name : String)
  | notifyAttempt (url : String) (payload : Payload)
deriving DecidableEq

/-- The JSON response of the handler: an error with a status code, or the
200 success body `\x7b"status": "success", "repo_url": .., "pages_url": ..\x7d`. -/
inductive Response
  | error (code : Nat) (msg : String)
  | success (repo_url : String) (pages_url : String)
deriving DecidableEq

/-- `data.get("evaluation_url") or EVALUATION_URL_DEFAULT` (line 125):
Python `or` falls through on `None` and on the empty string. -/
def resolveEvalUrl (u : Option String) (d : String) : String :=
  match u with
  | none => d
  | some s => if s = "" then d else s

/-- The canned default brief appearing at line 124. -/
def canned_brief : String := "Create a simple web page that says Hello World."

/-- `data.get("brief", <canned default>)` (line 124): `data.dict()` of a
pydantic model contains every declared field, so the key `"brief"` is always
present and the default is never returned. -/
def dict_get_brief (req : TaskRequest) (_default : String) : String := req.brief

/-- The generation prompt (lines 139-150), with the brief interpolated. -/
def prompt_for (brief : String) : String :=
  "\nYou are a senior web dev. Produce a single-file app (index.html) that satisfies:\n\nBRIEF:\n"
    ++ brief
    ++ "\n\nHARD REQUIREMENTS:\n- One file only: inline CSS & JS inside <style> and <script>.\n- No markdown, no explanations — return pure HTML only.\n- Add <meta name=\"viewport\"> and a <title>.\n- Include an element with id=\"app-status\" to show load status.\n"

/-- The README.md content written at line 198 (a truncating overwrite). -/
def readme_content (repo_name task : String) (round : Int) (brief : String) : String :=
  "# " ++ repo_name ++ "\n\nAuto-generated for **" ++ task ++ "** round **"
    ++ toString round ++ "**.\n\nBrief:\n\n" ++ [tick, tick, tick].asString ++ "\n"
    ++ brief ++ "\n" ++ [tick, tick, tick].asString

/-- The LICENSE content written at line 200. -/
def license_text : String := "MIT License\n\nCopyright (c) 2025"

/-- The POST /api-endpoint handler (src/main.py lines 109-238) as a pure
function: given the configuration, the outcomes of the external calls, and the
already-parsed request body, it returns the ordered trace of external effects
and the HTTP response.  Note that the handler contains no check on `round`. -/
def api_endpoint (cfg : Config) (env : Env) (req : TaskRequest) : List Effect × Response :=
  if some req.secret ≠ cfg.student_secret then
    ([], Response.error 403 "Invalid secret")
  else
    let email := pyStripStr req.email
    let task := pyStripStr req.task
    let round_num : Int := req.round
    let nonce := req.nonce
    let brief := dict_get_brief req canned_brief
    let evaluation_url := resolveEvalUrl req.evaluation_url cfg.evaluation_url_default
    if email = "" ∨ pyLowerStr email ≠ pyLowerStr cfg.allowed_email then
      ([], Response.error 400 ("Invalid email. Expected " ++ cfg.allowed_email ++ "."))
    else if task = "" then
      ([], Response.error 400 "Missing \x27task\x27.")
    else
      let repo_name := task ++ "-round" ++ toString round_num
      let pages_url := "https://" ++ cfg.github_owner ++ ".github.io/" ++ repo_name ++ "/"
      match env.gen with
      | GenOutcome.fail msg =>
          ([Effect.genCall (prompt_for brief)],
           Response.error 500 ("OpenAI generation failed: " ++ msg))
      | GenOutcome.ok raw =>
          let html := clean_llm_html raw
          let effects0 : List Effect :=
            [Effect.genCall (prompt_for brief),
             Effect.repoGet ("https://api.github.com/repos/" ++ cfg.github_owner ++ "/" ++ repo_name)]
          let publishTail := fun (acc : List Effect) (repo_url clone_url : String) =>
            let authed_clone_url :=
              pyReplaceStr clone_url "https://" ("https://" ++ cfg.github_token ++ "@")
            let readme := readme_content repo_name task round_num brief
            let commit_msg :=
              if env.repo_get_status = 200 then "round " ++ toString round_num ++ " update"
              else "initial commit"
            match env.git with
            | GitResult.cloneFail msg =>
                (acc ++ [Effect.gitClone authed_clone_url],
                 Response.error 500 ("Git error: " ++ msg))
            | GitResult.configFail msg =>
                (acc ++ [Effect.gitClone authed_clone_url],
                 Response.error 500 ("Git error: " ++ msg))
            | GitResult.addFail msg =>
                (acc ++ [Effect.gitClone authed_clone_url, Effect.writeIndex html,
                         Effect.writeReadme readme, Effect.writeLicense license_text],
                 Response.error 500 ("Git error: " ++ msg))
            | GitResult.commitFail msg =>
                (acc ++ [Effect.gitClone authed_clone_url, Effect.writeIndex html,
                         Effect.writeReadme readme, Effect.writeLicense license_text,
                         Effect.gitCommit commit_msg],
                 Response.error 500 ("Git error: " ++ msg))
            | GitResult.pushFail msg =>
                (acc ++ [Effect.gitClone authed_clone_url, Effect.writeIndex html,
                         Effect.writeReadme readme, Effect.writeLicense license_text,
                         Effect.gitCommit commit_msg, Effect.gitPush],
                 Response.error 500 ("Git error: " ++ msg))
            | GitResult.ok =>
              let acc2 := acc ++
                [Effect.gitClone authed_clone_url, Effect.writeIndex html,
                 Effect.writeReadme readme, Effect.writeLicense license_text,
                 Effect.gitCommit commit_msg, Effect.gitPush, Effect.pagesCall repo_name]
              let payload : Payload :=
                { email := email, task := task, round := round_num, nonce := nonce,
                  repo_url := repo_url, commit_sha := "main", pages_url := pages_url,
                  status := "success",
                  checks :=
                    [{ check := "license_mit", score := 1, reason := "MIT License detected" },
                     { check := "readme_exists", score := 1, reason := "README.md present" },
                     { check := "pages_live", score := 1,
                       reason := "GitHub Pages live at " ++ pages_url }] }
              let attempts := (notify_evaluator_run env.notify_results).1
              let acc3 := acc2 ++
                (List.range attempts).map (fun _ => Effect.notifyAttempt evaluation_url payload)
              (acc3, Response.success repo_url pages_url)
          if env.repo_get_status = 200 then
            publishTail effects0 env.repo_info.html_url env.repo_info.clone_url
          else if env.create_status = 201 then
            publishTail (effects0 ++ [Effect.repoCreate repo_name])
              env.create_info.html_url env.create_info.clone_url
          else
            (effects0 ++ [Effect.repoCreate repo_name],
             Response.error 500
               ("GitHub repo creation failed: " ++ toString env.create_status
                 ++ " " ++ env.create_text))

/-! ### Concrete fixtures used by witnesses and counterexamples -/

/-- A concrete configuration with the shared secret set. -/
def cfg0 : Config where
  github_token := "tok"
  student_secret := some "s3cret"
  github_owner := "owner"
  evaluation_url_default := "https://eval.example/"
  allowed_email := "student@example.com"

/-- A concrete valid request for round 1. -/
def req0 : TaskRequest where
  email := "student@example.com"
  secret := "s3cret"
  task := "demo"
  round := 1
  nonce := "n"
  brief := "make a page"
  evaluation_url := none

/-- A concrete environment: generation succeeds, the repository does not yet
exist, creation succeeds, git succeeds, hosting and notification succeed. -/
def env0 : Env where
  gen := GenOutcome.ok "<p>hi</p>"
  repo_get_status := 404
  repo_info := ⟨"", ""⟩
  create_status := 201
  create_text := ""
  create_info := ⟨"https://github.com/owner/demo-round1", "https://github.com/owner/demo-round1.git"⟩
  git := GitResult.ok
  pages_status := 201
  notify_results := fun _ => some 200

/-- The same request with a wrong secret. -/
def reqWrongSecret : TaskRequest :=
  { req0 with secret := "wrong" }

/-- The configuration with STUDENT_SECRET unset. -/
def cfgNoSecret : Config :=
  { cfg0 with student_secret := none }

/-- The valid request with round = 0. -/
def reqRound0 : TaskRequest :=
  { req0 with round := 0 }

/-- The valid request with round = 2. -/
def reqRound2 : TaskRequest :=
  { req0 with round := 2 }

/-- The valid request with an empty brief. -/
def reqEmptyBrief : TaskRequest :=
  { req0 with brief := "" }

/-- An environment in which the round-0 repository gets created. -/
def envRound0 : Env :=
  { env0 with
      create_info :=
        ⟨"https://github.com/owner/demo-round0", "https://github.com/owner/demo-round0.git"⟩ }

/-- An environment in which the target repository already exists. -/
def envExisting : Env :=
  { env0 with
      repo_get_status := 200,
      repo_info :=
        ⟨"https://github.com/owner/demo-round2", "https://github.com/owner/demo-round2.git"⟩ }

/-- An environment in which publish succeeds but the Pages call returns a
non-success status and every notification attempt fails. -/
def envLateFailures : Env :=
  { env0 with
      pages_status := 500,
      notify_results := fun _ => some 500 }

/-- The payload produced by the successful round-1 run on `cfg0`, `env0`,
`req0`. -/
def payload0 : Payload where
  email := "student@example.com"
  task := "demo"
  round := 1
  nonce := "n"
  repo_url := "https://github.com/owner/demo-round1"
  commit_sha := "main"
  pages_url := "https://owner.github.io/demo-round1/"
  status := "success"
  checks :=
    [{ check := "license_mit", score := 1, reason := "MIT License detected" },
     { check := "readme_exists", score := 1, reason := "README.md present" },
     { check := "pages_live", score := 1,
       reason := "GitHub Pages live at https://owner.github.io/demo-round1/" }]

/-! ### Lemmas about the fenced-code extraction -/

lemma take_append_congr (xs a b : List Char) (n : Nat) (h : a.take n = b.take n) :
    (xs ++ a).take n = (xs ++ b).take n := by
  rw [List.take_append_eq_append_take, List.take_append_eq_append_take]
  congr 1
  rw [← Nat.min_eq_left (Nat.sub_le n xs.length), ← List.take_take, h, List.take_take]

lemma startsFence_congr (l1 l2 : List Char) (h : l1.take 3 = l2.take 3) :
    startsFence l1 = startsFence l2 := by
  simp [startsFence, h]

lemma matchAt_eq_none (l : List Char) (h : startsFence l = false) : matchAt l = none := by
  simp [matchAt, h]

lemma searchFence_eq_none (l : List Char) (h : containsFence l = false) :
    searchFence l = none := by
  induction l with
  | nil => rfl
  | cons c rest ih =>
    rw [containsFence, Bool.or_eq_false_iff] at h
    rw [searchFence, matchAt_eq_none _ h.1]
    exact ih h.2

lemma findClose_append (mid post : List Char)
    (h : containsFence (mid ++ [tick, tick]) = false) :
    findClose (mid ++ tick :: tick :: tick :: post) = some (mid, post) := by
  induction mid with
  | nil =>
    simp [findClose, startsFence]
  | cons c mid ih =>
    rw [List.cons_append, containsFence, Bool.or_eq_false_iff] at h
    have htk : (mid ++ tick :: tick :: tick :: post).take 2 = (mid ++ [tick, tick]).take 2 :=
      take_append_congr mid _ _ 2 rfl
    have hsf : startsFence (c :: (mid ++ tick :: tick :: tick :: post)) = false := by
      rw [startsFence_congr _ (c :: (mid ++ [tick, tick]))
        (by simp [List.take_succ_cons, htk])]
      exact h.1
    rw [List.cons_append, findClose, if_neg (by simp [hsf]), ih h.2]

lemma searchFence_append (pre l : List Char) (hl : l.take 2 = [tick, tick])
    (h : containsFence (pre ++ [tick, tick]) = false) :
    searchFence (pre ++ l) = searchFence l := by
  induction pre with
  | nil => rfl
  | cons c pre ih =>
    rw [List.cons_append, containsFence, Bool.or_eq_false_iff] at h
    have htk : (pre ++ l).take 2 = (pre ++ [tick, tick]).take 2 :=
      take_append_congr pre _ _ 2 (by simp [hl])
    have hsf : startsFence (c :: (pre ++ l)) = false := by
      rw [startsFence_congr _ (c :: (pre ++ [tick, tick]))
        (by simp [List.take_succ_cons, htk])]
      exact h.1
    rw [List.cons_append, searchFence, matchAt_eq_none _ hsf]
    exact ih h.2

lemma isHtmlTagCI_inv (tag : List Char) (h : isHtmlTagCI tag = true) :
    ∃ c1 c2 c3 c4, tag = [c1, c2, c3, c4] ∧ c1.toLower = 'h' ∧ c2.toLower = 't' ∧
      c3.toLower = 'm' ∧ c4.toLower = 'l' := by
  rcases tag with _ | ⟨c1, _ | ⟨c2, _ | ⟨c3, _ | ⟨c4, _ | ⟨c5, tl⟩⟩⟩⟩⟩ <;>
    simp only [isHtmlTagCI] at h
  · exact absurd h Bool.false_ne_true
  · exact absurd h Bool.false_ne_true
  · exact absurd h Bool.false_ne_true
  · exact absurd h Bool.false_ne_true
  · simp only [Bool.and_eq_true, decide_eq_true_eq] at h
    exact ⟨c1, c2, c3, c4, rfl, h.1.1.1, h.1.1.2, h.1.2, h.2⟩
  · exact absurd h Bool.false_ne_true

lemma searchFence_block (pre tag mid post : List Char)
    (hpre : containsFence (pre ++ [tick, tick]) = false)
    (htag : tag = [] ∨ isHtmlTagCI tag = true)
    (htag2 : tag = [] → startsWithHtmlCI (mid ++ tick :: tick :: tick :: post) = false)
    (hmid : containsFence (mid ++ [tick, tick]) = false) :
    searchFence (pre ++ tick :: tick :: tick :: (tag ++ (mid ++ tick :: tick :: tick :: post)))
      = some mid := by
  rw [searchFence_append pre _ (by rfl) hpre]
  have hm : matchAt (tick :: tick :: tick :: (tag ++ (mid ++ tick :: tick :: tick :: post)))
      = some mid := by
    have hsf : startsFence
        (tick :: tick :: tick :: (tag ++ (mid ++ tick :: tick :: tick :: post))) = true := by
      simp [startsFence]
    rcases htag with rfl | hhtml
    · simp only [List.nil_append] at hsf ⊢
      simp only [matchAt, hsf, if_true, List.drop_succ_cons, List.drop_zero,
        htag2 rfl, Bool.false_eq_true, if_false]
      rw [findClose_append mid post hmid]
    · obtain ⟨c1, c2, c3, c4, rfl, h1, h2, h3, h4⟩ := isHtmlTagCI_inv tag hhtml
      have hhc : startsWithHtmlCI
          (c1 :: c2 :: c3 :: c4 :: (mid ++ tick :: tick :: tick :: post)) = true := by
        simp [startsWithHtmlCI, h1, h2, h3, h4]
      simp only [List.cons_append, List.nil_append] at hsf ⊢
      simp only [matchAt, hsf, if_true, List.drop_succ_cons, List.drop_zero, hhc]
      rw [findClose_append mid post hmid]
  rw [searchFence, hm]

/-! ### Claim C6 -/

/-- C6: the fenced-code extraction of `clean_llm_html`.  If the input contains
no triple-backtick fence, the result is the whole input stripped of leading
and trailing whitespace.  If the input contains a fenced code block — a
leftmost opening fence, an optional case-insensitive `html` language tag, the
interior, and the earliest closing fence — the result is exactly the block's
interior stripped of leading and trailing whitespace. -/
theorem C6_clean_llm_html_extraction :
    (∀ l : List Char, containsFence l = false → cleanCore l = pyStrip l) ∧
    (∀ pre tag mid post : List Char,
      containsFence (pre ++ [tick, tick]) = false →
      (tag = [] ∨ isHtmlTagCI tag = true) →
      (tag = [] → startsWithHtmlCI (mid ++ tick :: tick :: tick :: post) = false) →
      containsFence (mid ++ [tick, tick]) = false →
      cleanCore (pre ++ tick :: tick :: tick :: (tag ++ (mid ++ tick :: tick :: tick :: post)))
        = pyStrip mid) := by
  constructor
  · intro l h
    rw [cleanCore, searchFence_eq_none l h]
  · intro pre tag mid post h1 h2 h3 h4
    rw [cleanCore, searchFence_block pre tag mid post h1 h2 h3 h4]

/-- Witness for C6: a fence-free input is returned stripped, and a minimal
fenced block yields its interior. -/
theorem C6_clean_llm_html_extraction_witness :
    cleanCore [' ', 'a'] = pyStrip [' ', 'a'] ∧
    cleanCore [tick, tick, tick, 'x', tick, tick, tick] = pyStrip ['x'] := by
  constructor
  · exact C6_clean_llm_html_extraction.1 [' ', 'a'] (by decide)
  · have h := C6_clean_llm_html_extraction.2 [] [] ['x'] [] (by decide) (Or.inl rfl)
      (fun _ => by decide) (by decide)
    simpa using h

/-! ### Claim C2 -/

/-- C2 counterexample: with an evaluator that always returns status 500, the
notifier does make exactly 5 attempts, but it sleeps after every failed
attempt including the last one: the sleeps performed are 1, 2, 4, 8, 16,
totalling 31 time units — not the claimed schedule 1, 2, 4, 8 with total 15
(within 14–16), and not "never after the last attempt". -/
theorem C2_counterexample :
    notify_evaluator_run (fun _ => some 500) = (5, [1, 2, 4, 8, 16]) ∧
    (([1, 2, 4, 8, 16] : List Nat).sum = 31 ∧ ¬ (14 ≤ (31 : Nat) ∧ (31 : Nat) ≤ 16)) := by
  refine ⟨?_, ?_, ?_⟩ <;> decide

/-- C2 amended: when every delivery attempt fails (non-200 status or transport
error), exactly 5 attempts are made, and a delay follows every failed attempt
— including the last — with schedule 1, 2, 4, 8, 16, so the total sleep time
is 31 time units. -/
theorem C2_retry_schedule (res : Nat → Option Nat)
    (h : ∀ i, i < 5 → res i ≠ some 200) :
    notify_evaluator_run res = (5, [1, 2, 4, 8, 16]) := by
  simp [notify_evaluator_run, notifyAux, h 0 (by norm_num), h 1 (by norm_num),
    h 2 (by norm_num), h 3 (by norm_num), h 4 (by norm_num)]

/-- Witness for C2: a concrete always-404 evaluator. -/
theorem C2_retry_schedule_witness :
    notify_evaluator_run (fun _ => some 404) = (5, [1, 2, 4, 8, 16]) :=
  C2_retry_schedule (fun _ => some 404) (fun _ _ => by simp)

/-! ### Claims C4 and C9: authentication -/

lemma auth_reject (cfg : Config) (env : Env) (req : TaskRequest)
    (h : some req.secret ≠ cfg.student_secret) :
    api_endpoint cfg env req = ([], Response.error 403 "Invalid secret") := by
  rw [api_endpoint, if_pos h]

/-- C4: any request whose secret differs from the configured shared secret is
answered 403 with an invalid-secret error, regardless of every other field,
and the trace of external calls is empty. -/
theorem C4_invalid_secret_rejected (cfg : Config) (env : Env) (req : TaskRequest)
    (h : some req.secret ≠ cfg.student_secret) :
    api_endpoint cfg env req = ([], Response.error 403 "Invalid secret") :=
  auth_reject cfg env req h

/-- Witness for C4: a concrete wrong-secret request. -/
theorem C4_invalid_secret_rejected_witness :
    api_endpoint cfg0 env0 reqWrongSecret = ([], Response.error 403 "Invalid secret") :=
  C4_invalid_secret_rejected cfg0 env0 reqWrongSecret (by decide)

/-- C9: if STUDENT_SECRET is unset so the configured value is None, every
request is rejected with 403, whatever string the caller supplies, because a
string never equals None. -/
theorem C9_unset_secret_rejects_all (cfg : Config) (env : Env) (req : TaskRequest)
    (h : cfg.student_secret = none) :
    api_endpoint cfg env req = ([], Response.error 403 "Invalid secret") :=
  auth_reject cfg env req (by simp [h])

/-- Witness for C9: the fixture configuration with the secret removed rejects
the otherwise-valid request. -/
theorem C9_unset_secret_rejects_all_witness :
    api_endpoint cfgNoSecret env0 req0 = ([], Response.error 403 "Invalid secret") :=
  C9_unset_secret_rejects_all cfgNoSecret env0 req0 rfl

/-! ### Claim C5: commit messages -/

/-- C5: if the trace contains a commit, its message is "round N update" when
the repository already existed at resolution time (GET status 200) and
"initial commit" when it did not. -/
theorem C5_commit_message (cfg : Config) (env : Env) (req : TaskRequest) (msg : String)
    (h : Effect.gitCommit msg ∈ (api_endpoint cfg env req).1) :
    msg = (if env.repo_get_status = 200 then "round " ++ toString req.round ++ " update"
           else "initial commit") := by
  by_cases hsec : some req.secret = cfg.student_secret <;>
  by_cases hemail : (pyStripStr req.email = ""
    ∨ ¬pyLowerStr (pyStripStr req.email) = pyLowerStr cfg.allowed_email) <;>
  by_cases htask : pyStripStr req.task = "" <;>
  cases hgen : env.gen <;>
  by_cases hupd : env.repo_get_status = 200 <;>
  by_cases hcr : env.create_status = 201 <;>
  cases hgit : env.git <;>
  simp_all [api_endpoint]

/-- Witness for C5: the fresh-repository fixture run commits with message
"initial commit". -/
theorem C5_commit_message_witness :
    "initial commit"
      = (if env0.repo_get_status = 200 then "round " ++ toString req0.round ++ " update"
         else "initial commit") :=
  C5_commit_message cfg0 env0 req0 "initial commit" (by decide)

/-! ### Claim C10: the commit reference sent to the evaluator -/

/-- C10: every notification attempt in any trace carries a payload whose
commit_sha field is the constant string "main", independent of any commit
actually produced. -/
theorem C10_commit_sha_is_main (cfg : Config) (env : Env) (req : TaskRequest)
    (url : String) (p : Payload)
    (h : Effect.notifyAttempt url p ∈ (api_endpoint cfg env req).1) :
    p.commit_sha = "main" := by
  by_cases hsec : some req.secret = cfg.student_secret <;>
  by_cases hemail : (pyStripStr req.email = ""
    ∨ ¬pyLowerStr (pyStripStr req.email) = pyLowerStr cfg.allowed_email) <;>
  by_cases htask : pyStripStr req.task = "" <;>
  cases hgen : env.gen <;>
  by_cases hupd : env.repo_get_status = 200 <;>
  by_cases hcr : env.create_status = 201 <;>
  cases hgit : env.git <;>
  simp_all [api_endpoint]

/-- Witness for C10: the concrete round-1 run notifies with `payload0`, whose
commit_sha is "main". -/
theorem C10_commit_sha_is_main_witness : payload0.commit_sha = "main" :=
  C10_commit_sha_is_main cfg0 env0 req0 "https://eval.example/" payload0 (by decide)

/-! ### Claim C1: round validation -/

/-- C1 counterexample: a request with round = 0 (< 1), the correct secret, a
valid email and a nonempty task is not rejected with 400: the pipeline runs to
a 200 success and the generation call (and repository calls) occur. -/
theorem C1_counterexample :
    reqRound0.round < 1 ∧ some reqRound0.secret = cfg0.student_secret ∧
    (api_endpoint cfg0 envRound0 reqRound0).2
      = Response.success "https://github.com/owner/demo-round0"
          "https://owner.github.io/demo-round0/" ∧
    Effect.genCall (prompt_for reqRound0.brief) ∈ (api_endpoint cfg0 envRound0 reqRound0).1 := by
  refine ⟨by decide, by decide, by decide, by decide⟩

/-- C1 amended: the handler performs no validation of `round` at all.  A
request with round < 1 that passes the secret, email and task checks proceeds
to content generation (the generation call is in the trace), the sub-1 round
being used as-is to build the repository name; no 400 response for a sub-1
round exists. -/
theorem C1_no_round_validation (cfg : Config) (env : Env) (req : TaskRequest)
    (_hround : req.round < 1)
    (hsec : some req.secret = cfg.student_secret)
    (hemail1 : ¬ pyStripStr req.email = "")
    (hemail2 : pyLowerStr (pyStripStr req.email) = pyLowerStr cfg.allowed_email)
    (htask : ¬ pyStripStr req.task = "") :
    Effect.genCall (prompt_for req.brief) ∈ (api_endpoint cfg env req).1 := by
  cases hgen : env.gen <;>
  by_cases hupd : env.repo_get_status = 200 <;>
  by_cases hcr : env.create_status = 201 <;>
  cases hgit : env.git <;>
  simp_all [api_endpoint, dict_get_brief]

/-- Witness for the amended C1: the concrete round-0 request generates. -/
theorem C1_no_round_validation_witness :
    Effect.genCall (prompt_for reqRound0.brief) ∈ (api_endpoint cfg0 envRound0 reqRound0).1 :=
  C1_no_round_validation cfg0 envRound0 reqRound0 (by decide) (by decide) (by decide)
    (by decide) (by decide)

/-! ### Claim C3: round-2 content policy -/

/-- C3 counterexample: for a round-2 request against an existing repository,
the publisher writes a fresh index.html equal to the generated HTML — which
contains no HTML comment marker at all — and a fresh README that contains no
"Round 2 updates" section.  The writes are truncating whole-file writes whose
content is independent of anything previously published, so nothing is
appended or preserved. -/
theorem C3_counterexample :
    (2 : Int) ≤ reqRound2.round ∧ envExisting.repo_get_status = 200 ∧
    Effect.writeIndex "<p>hi</p>" ∈ (api_endpoint cfg0 envExisting reqRound2).1 ∧
    Effect.writeReadme (readme_content "demo-round2" "demo" 2 "make a page")
      ∈ (api_endpoint cfg0 envExisting reqRound2).1 ∧
    hasSub "Round 2 updates".toList
      (readme_content "demo-round2" "demo" 2 "make a page").toList = false ∧
    hasSub "<!--".toList "<p>hi</p>".toList = false := by
  refine ⟨by decide, rfl, by decide, by decide, by decide, by decide⟩

/-- C3 amended: on a round ≥ 2 publish against an already-existing repository
whose git steps succeed, the publisher overwrites rather than appends: the
index.html written is exactly the freshly generated HTML, the README.md
written is exactly the freshly generated README, and every index/readme write
in the trace has exactly that content — no previous content is read,
preserved or annotated. -/
theorem C3_round2_overwrites (cfg : Config) (env : Env) (req : TaskRequest) (raw : String)
    (_hround : (2 : Int) ≤ req.round)
    (hsec : some req.secret = cfg.student_secret)
    (hemail1 : ¬ pyStripStr req.email = "")
    (hemail2 : pyLowerStr (pyStripStr req.email) = pyLowerStr cfg.allowed_email)
    (htask : ¬ pyStripStr req.task = "")
    (hgen : env.gen = GenOutcome.ok raw)
    (hupd : env.repo_get_status = 200)
    (hgit : env.git = GitResult.ok) :
    (Effect.writeIndex (clean_llm_html raw) ∈ (api_endpoint cfg env req).1 ∧
     Effect.writeReadme (readme_content (pyStripStr req.task ++ "-round" ++ toString req.round)
         (pyStripStr req.task) req.round req.brief) ∈ (api_endpoint cfg env req).1) ∧
    (∀ c, Effect.writeIndex c ∈ (api_endpoint cfg env req).1 → c = clean_llm_html raw) ∧
    (∀ c, Effect.writeReadme c ∈ (api_endpoint cfg env req).1 →
      c = readme_content (pyStripStr req.task ++ "-round" ++ toString req.round)
            (pyStripStr req.task) req.round req.brief) := by
  refine ⟨⟨?_, ?_⟩, fun c hc => ?_, fun c hc => ?_⟩ <;>
  simp_all [api_endpoint, dict_get_brief]

/-- Witness for the amended C3: the concrete round-2 run on the existing
repository writes the freshly generated HTML. -/
theorem C3_round2_overwrites_witness :
    Effect.writeIndex (clean_llm_html "<p>hi</p>")
      ∈ (api_endpoint cfg0 envExisting reqRound2).1 :=
  (C3_round2_overwrites cfg0 envExisting reqRound2 "<p>hi</p>" (by decide) (by decide)
    (by decide) (by decide) (by decide) rfl rfl rfl).1.1

/-! ### Claim C7: late failures do not change the response -/

/-- C7: once the request passes validation, generation, resolution and the
git publish, the response is 200 success — for every Pages status and every
sequence of notifier outcomes (both are universally quantified through `env`),
so a failed hosting call or an exhausted notifier is never surfaced. -/
theorem C7_push_success_is_success (cfg : Config) (env : Env) (req : TaskRequest) (raw : String)
    (hsec : some req.secret = cfg.student_secret)
    (hemail1 : ¬ pyStripStr req.email = "")
    (hemail2 : pyLowerStr (pyStripStr req.email) = pyLowerStr cfg.allowed_email)
    (htask : ¬ pyStripStr req.task = "")
    (hgen : env.gen = GenOutcome.ok raw)
    (hres : env.repo_get_status = 200 ∨ env.create_status = 201)
    (hgit : env.git = GitResult.ok) :
    (api_endpoint cfg env req).2
      = Response.success
          (if env.repo_get_status = 200 then env.repo_info.html_url
           else env.create_info.html_url)
          ("https://" ++ cfg.github_owner ++ ".github.io/"
            ++ (pyStripStr req.task ++ "-round" ++ toString req.round) ++ "/") := by
  by_cases hupd : env.repo_get_status = 200
  · simp [api_endpoint, hsec, hemail1, hemail2, htask, hgen, hupd, hgit]
  · have hcr : env.create_status = 201 := hres.resolve_left hupd
    simp [api_endpoint, hsec, hemail1, hemail2, htask, hgen, hupd, hcr, hgit]

/-- Witness for C7: with the Pages call returning 500 and every notification
attempt failing, the concrete run still answers 200 success. -/
theorem C7_push_success_is_success_witness :
    (api_endpoint cfg0 envLateFailures req0).2
      = Response.success
          (if envLateFailures.repo_get_status = 200 then envLateFailures.repo_info.html_url
           else envLateFailures.create_info.html_url)
          ("https://" ++ cfg0.github_owner ++ ".github.io/"
            ++ (pyStripStr req0.task ++ "-round" ++ toString req0.round) ++ "/") :=
  C7_push_success_is_success cfg0 envLateFailures req0 "<p>hi</p>" (by decide) (by decide)
    (by decide) (by decide) rfl (Or.inr rfl) rfl

/-! ### Claim C8: the empty brief -/

/-- C8 counterexample: a request whose brief is the empty string is NOT given
the canned default sentence: the generation call in the trace uses the prompt
built from the empty brief, which does not contain the canned sentence and
differs from the prompt built from it.  (`data.dict()` always contains the
required `brief` key, so the `.get` default at line 124 is dead code.) -/
theorem C8_counterexample :
    reqEmptyBrief.brief = "" ∧
    Effect.genCall (prompt_for "") ∈ (api_endpoint cfg0 env0 reqEmptyBrief).1 ∧
    hasSub canned_brief.toList (prompt_for "").toList = false ∧
    ¬ prompt_for "" = prompt_for canned_brief := by
  refine ⟨rfl, by decide, by decide, by decide⟩

/-- C8 amended: the brief actually used for generation is the caller's brief
verbatim; in particular an empty brief stays empty, since the canned default
of `dict.get` applies only to a missing key and `brief` is a required field. -/
theorem C8_empty_brief_not_defaulted (cfg : Config) (env : Env) (req : TaskRequest)
    (hbrief : req.brief = "")
    (hsec : some req.secret = cfg.student_secret)
    (hemail1 : ¬ pyStripStr req.email = "")
    (hemail2 : pyLowerStr (pyStripStr req.email) = pyLowerStr cfg.allowed_email)
    (htask : ¬ pyStripStr req.task = "") :
    Effect.genCall (prompt_for "") ∈ (api_endpoint cfg env req).1 := by
  cases hgen : env.gen <;>
  by_cases hupd : env.repo_get_status = 200 <;>
  by_cases hcr : env.create_status = 201 <;>
  cases hgit : env.git <;>
  simp_all [api_endpoint, dict_get_brief]

/-- Witness for the amended C8: the concrete empty-brief request generates
with the empty-brief prompt. -/
theorem C8_empty_brief_not_defaulted_witness :
    Effect.genCall (prompt_for "") ∈ (api_endpoint cfg0 env0 reqEmptyBrief).1 :=
  C8_empty_brief_not_defaulted cfg0 env0 reqEmptyBrief rfl (by decide) (by decide)
    (by decide) (by decide)

end NewToken
